import Mathlib

/-!
Verification of the pod-security readiness violation engine
(package podsecurityreadinesscontroller).

The Go source is embedded shallowly:
* Maps are association lists looked up with `lookupStr` (first match wins);
  a missing key reads as the empty string where Go indexes a map directly.
* The external collaborators of the detector (namespace extraction, the
  dry-run apply, pod listing, the pod-security policy evaluator) are inputs
  collected in `DetectEnv`; the warning side channel is the list of warnings
  the sink would return from PopAll right after the dry-run apply.
* Go multi-returns `(T, error)` become pairs with an `Option GoError`
  component, `none` meaning a nil error.
* String helpers (lower-casing, ordering, concatenation) are re-implemented
  over the character list of a string so every definition evaluates inside
  the kernel. Lower-casing folds the ASCII range, which covers every string
  the embedded switch compares against.
* Timestamps (metav1.Now in makeCondition) are wall-clock input and are left
  out of the condition record; no claim below concerns them.
-/

/-- Lower-case an ASCII letter, leave every other character unchanged
(model of the per-rune step of strings.ToLower for the ASCII range). -/
def lowerChar (c : Char) : Char :=
  if 65 ≤ c.toNat ∧ c.toNat ≤ 90 then Char.ofNat (c.toNat + 32) else c

/-- Model of strings.ToLower (ASCII folding). -/
def toLowerStr (s : String) : String := String.mk (s.data.map lowerChar)

/-- Association-list lookup, the model of a Go map read with comma-ok. -/
def lookupStr (k : String) : List (String × String) → Option String
  | [] => none
  | (k2, v) :: rest => if k = k2 then some v else lookupStr k rest

/-- Membership test on a list of strings, the model of sets.Set.Has. -/
def hasStr : List String → String → Bool
  | [], _ => false
  | x :: xs, k => if x = k then true else hasStr xs k

def strStartsAux : List Char → List Char → Bool
  | _, [] => true
  | [], _ :: _ => false
  | a :: as, b :: bs => if a = b then strStartsAux as bs else false

/-- Model of strings.HasPrefix s p. -/
def startsWithStr (s p : String) : Bool := strStartsAux s.data p.data

/-- Lexicographic order on character lists by code point; UTF-8 byte order
(what sort.Strings uses) coincides with code-point order. -/
def strListLe : List Char → List Char → Bool
  | [], _ => true
  | _ :: _, [] => false
  | a :: as, b :: bs =>
    if a.toNat < b.toNat then true
    else if b.toNat < a.toNat then false
    else strListLe as bs

/-- Lexicographic string order used to model sort.Strings. -/
def strLe (a b : String) : Bool := strListLe a.data b.data

instance : DecidableRel (fun a b : String => strLe a b = true) :=
  fun _ _ => Bool.decEq _ _

/-- Ascending string sort; equal strings being identical, any correct sort
produces the same list as Go sort.Strings. -/
def sortStrings (l : List String) : List String :=
  List.insertionSort (fun a b => strLe a b = true) l

/-- Concatenation built over the character lists. -/
def strConcat (a b : String) : String := String.mk (a.data ++ b.data)

/-- Space-separated join of the elements, the inner part of how fmt renders
a string slice. -/
def joinSpace : List String → String
  | [] => ""
  | [x] => x
  | x :: xs => strConcat x (strConcat " " (joinSpace xs))

/-- Model of the fmt verb %v on a []string value: [a b c]. -/
def goStringSlice (xs : List String) : String :=
  strConcat "[" (strConcat (joinSpace xs) "]")

/-- Substitute the first %v in a format string, the model of fmt.Sprintf
with one verb and one argument. -/
def substituteV : List Char → List Char → List Char
  | [], _ => []
  | '%' :: 'v' :: rest, arg => arg ++ rest
  | c :: rest, arg => c :: substituteV rest arg

def sprintfSlice (f : String) (xs : List String) : String :=
  String.mk (substituteV f.data (goStringSlice xs).data)

/-! Constants of the source (label and annotation keys, condition types,
reason strings). -/

def minimallySufficientPodSecurityStandard : String :=
  "security.openshift.io/MinimallySufficientPodSecurityStandard"

def validatedSCCSubjectType : String :=
  "security.openshift.io/validated-scc-subject-type"

def warnLevelLabel : String := "pod-security.kubernetes.io/warn"

def auditLevelLabel : String := "pod-security.kubernetes.io/audit"

def enforceLevelLabel : String := "pod-security.kubernetes.io/enforce"

def labelSyncControlLabel : String := "security.openshift.io/scc.podSecurityLabelSync"

def PodSecurityCustomerViolationType : String :=
  "PodSecurityCustomerEvaluationViolationConditionsDetected"

def PodSecurityOpenshiftViolationType : String :=
  "PodSecurityOpenshiftEvaluationViolationConditionsDetected"

def PodSecurityRunLevelZeroViolationType : String :=
  "PodSecurityRunLevelZeroEvaluationViolationConditionsDetected"

def PodSecurityDisabledSyncerViolationType : String :=
  "PodSecurityDisabledSyncerEvaluationViolationConditionsDetected"

def PodSecurityCustomerInconclusiveType : String :=
  "PodSecurityCustomerEvaluationInconclusiveConditionsDetected"

def PodSecurityOpenshiftInconclusiveType : String :=
  "PodSecurityOpenshiftEvaluationInconclusiveConditionsDetected"

def PodSecurityRunLevelZeroInconclusiveType : String :=
  "PodSecurityRunLevelZeroEvaluationInconclusiveConditionsDetected"

def PodSecurityDisabledSyncerInconclusiveType : String :=
  "PodSecurityDisabledSyncerEvaluationInconclusiveConditionsDetected"

def violationReason : String := "PSViolationsDetected"

def inconclusiveReason : String := "PSViolationDecisionInconclusive"

def conditionTrue : String := "True"

def conditionFalse : String := "False"

/-- The fixed run-level-zero namespace set of the source. -/
def runLevelZeroNamespaces : List String := ["default", "kube-system", "kube-public"]

/-! The pod-security level type of k8s.io/pod-security-admission/api. -/

inductive Level where
  | privileged
  | baseline
  | restricted
deriving DecidableEq, Repr

/-- The canonical string of a level (the Go Level values are these strings). -/
def levelString : Level → String
  | .privileged => "privileged"
  | .baseline => "baseline"
  | .restricted => "restricted"

/-- Model of psapi.ParseLevel: exact, case-sensitive match against the three
level names; anything else is an error (here: none). -/
def parseLevel (s : String) : Option Level :=
  if s = "privileged" then some .privileged
  else if s = "baseline" then some .baseline
  else if s = "restricted" then some .restricted
  else none

/-- Model of psapi.CompareLevels on the string-typed Go levels: 0 on equal
values, privileged below everything, restricted above everything. Both call
sites in the source pass values that ParseLevel accepted, so only the
behaviour on the three valid levels is relied upon. -/
def compareLevels (a b : String) : Int :=
  if a = b then 0
  else if a = "privileged" then -1
  else if a = "restricted" then 1
  else if b = "privileged" then 1
  else if b = "restricted" then -1
  else 0

/-! Data model. `anns` holds the metadata annotations of the object. -/

structure KNamespace where
  name : String
  labels : List (String × String)
  anns : List (String × String)

structure NamespaceApplyConfiguration where
  labels : List (String × String)
  anns : List (String × String)

structure EvaluationResult where
  allowed : Bool
deriving DecidableEq, Repr

structure Pod where
  anns : List (String × String)

/-- Errors of the engine. external carries an error produced by a
collaborator call (extraction, dry-run apply, pod listing); noSignal is the
no-labels-or-annotations error of the resolver; unknownLevel is the
unknown-level error of the attribution step. -/
inductive GoError where
  | external (msg : String)
  | noSignal
  | unknownLevel (label : String)
deriving DecidableEq, Repr

/-- Inputs of one isNamespaceViolating call: the result of
applyconfiguration.ExtractNamespace, the outcome of the dry-run apply, the
warnings the sink returns from PopAll right after it, the pod listing, and
the pod-security policy evaluator (EvaluatePod at the latest version). -/
structure DetectEnv where
  extractResult : Except GoError NamespaceApplyConfiguration
  applyResult : Option GoError
  warnings : List String
  podsResult : Except GoError (List Pod)
  evaluatePod : Level → Pod → List EvaluationResult

/-! The engine, translated function by function from the source. -/

/-- Loop body of pickStrictest: levels that fail to parse are skipped, an
empty accumulator takes the first parsed value, afterwards a value replaces
the accumulator when CompareLevels says it is stricter. -/
def pickStrictestLoop : List String → String → String
  | [], targetLevel => targetLevel
  | value :: rest, targetLevel =>
    match parseLevel value with
    | none => pickStrictestLoop rest targetLevel
    | some _ =>
      if targetLevel = "" then pickStrictestLoop rest value
      else if compareLevels targetLevel value < 0 then pickStrictestLoop rest value
      else pickStrictestLoop rest targetLevel

/-- pickStrictest of the source: fold the loop over the viable label values
and fall back to restricted when nothing parsed. -/
def pickStrictest (viableLabels : List String) : String :=
  let targetLevel := pickStrictestLoop viableLabels ""
  if targetLevel = "" then "restricted" else targetLevel

/-- The values of the warn and audit labels that are present on the
extracted configuration (the iteration order over the two-element label set
is fixed here; order independence is proved separately). -/
def viableLabelValues (ns : NamespaceApplyConfiguration) : List String :=
  (match lookupStr warnLevelLabel ns.labels with
   | some v => [v]
   | none => []) ++
  (match lookupStr auditLevelLabel ns.labels with
   | some v => [v]
   | none => [])

/-- determineEnforceLabelForNamespace of the source: the
MinimallySufficientPodSecurityStandard annotation wins verbatim when
present; otherwise the present warn and audit label values are collected,
an empty collection is the no-signal error, and otherwise pickStrictest
decides. -/
def determineEnforceLabelForNamespace (ns : NamespaceApplyConfiguration) :
    String × Option GoError :=
  match lookupStr minimallySufficientPodSecurityStandard ns.anns with
  | some v => (v, none)
  | none =>
    let viableLabels := viableLabelValues ns
    if viableLabels = [] then ("", some .noSignal)
    else (pickStrictest viableLabels, none)

/-- shouldCheckForUserSCC of the source. -/
def shouldCheckForUserSCC (ns : KNamespace) : Bool :=
  if hasStr runLevelZeroNamespaces ns.name
      || startsWithStr ns.name "openshift"
      || decide ((lookupStr labelSyncControlLabel ns.labels).getD "" = "false") then
    false
  else
    true

/-- A pod whose validated-scc-subject-type annotation is present and equals
user (the condition of the attribution loop). -/
def isUserPod (pod : Pod) : Bool :=
  match lookupStr validatedSCCSubjectType pod.anns with
  | some subjectType => if subjectType = "user" then true else false
  | none => false

/-- Some result of EvaluatePod at the given level disallows the pod. -/
def podFailsLevel (env : DetectEnv) (enforcementLevel : Level) (pod : Pod) : Bool :=
  (env.evaluatePod enforcementLevel pod).any (fun r => !r.allowed)

/-- The switch of isUserViolation on the lower-cased label: the three level
names map to their level, anything else falls to the default (none, the
unknown-level error at the call site). -/
def switchLevel (label : String) : Option Level :=
  if toLowerStr label = "restricted" then some Level.restricted
  else if toLowerStr label = "baseline" then some Level.baseline
  else if toLowerStr label = "privileged" then some Level.privileged
  else none

/-- isUserViolation of the source: skip ineligible namespaces, map the
lower-cased label to a level (unknown is an error), list pods (propagating
the error), and scan for a user-annotated pod that some evaluation result
disallows; the first hit decides. -/
def isUserViolation (env : DetectEnv) (ns : KNamespace) (label : String) :
    Bool × Option GoError :=
  if shouldCheckForUserSCC ns = false then (false, none)
  else
    match switchLevel label with
    | none => (false, some (.unknownLevel label))
    | some enforcementLevel =>
      match env.podsResult with
      | .error e => (false, some e)
      | .ok pods =>
        (pods.any (fun pod => isUserPod pod && podFailsLevel env enforcementLevel pod),
         none)

/-- isNamespaceViolating of the source: extraction, level resolution and
the dry-run apply each propagate their error; with at least one captured
warning the namespace is violating and attribution is computed (its error
propagates); with none the namespace is not violating. -/
def isNamespaceViolating (env : DetectEnv) (ns : KNamespace) :
    Bool × Bool × Option GoError :=
  match env.extractResult with
  | .error e => (false, false, some e)
  | .ok nsApplyConfig =>
    match determineEnforceLabelForNamespace nsApplyConfig with
    | (_, some e) => (false, false, some e)
    | (enforceLabel, none) =>
      match env.applyResult with
      | some e => (false, false, some e)
      | none =>
        if env.warnings.length > 0 then
          match isUserViolation env ns enforceLabel with
          | (_, some e) => (false, false, some e)
          | (userViolation, none) => (true, userViolation, none)
        else
          (false, false, none)

/-! The condition aggregator. -/

structure PodSecurityOperatorConditions where
  violatingOpenShiftNamespaces : List String
  violatingRunLevelZeroNamespaces : List String
  violatingCustomerNamespaces : List String
  violatingDisabledSyncerNamespaces : List String
  inconclusiveOpenShiftNamespaces : List String
  inconclusiveRunLevelZeroNamespaces : List String
  inconclusiveCustomerNamespaces : List String
  inconclusiveDisabledSyncerNamespaces : List String
deriving DecidableEq, Repr

/-- addViolation of the source. -/
def addViolation (c : PodSecurityOperatorConditions) (ns : KNamespace) :
    PodSecurityOperatorConditions :=
  if hasStr runLevelZeroNamespaces ns.name then
    { c with violatingRunLevelZeroNamespaces :=
        c.violatingRunLevelZeroNamespaces ++ [ns.name] }
  else if startsWithStr ns.name "openshift" then
    { c with violatingOpenShiftNamespaces :=
        c.violatingOpenShiftNamespaces ++ [ns.name] }
  else if (lookupStr labelSyncControlLabel ns.labels).getD "" = "false" then
    { c with violatingDisabledSyncerNamespaces :=
        c.violatingDisabledSyncerNamespaces ++ [ns.name] }
  else
    { c with violatingCustomerNamespaces :=
        c.violatingCustomerNamespaces ++ [ns.name] }

/-- addInconclusive of the source. -/
def addInconclusive (c : PodSecurityOperatorConditions) (ns : KNamespace) :
    PodSecurityOperatorConditions :=
  if hasStr runLevelZeroNamespaces ns.name then
    { c with inconclusiveRunLevelZeroNamespaces :=
        c.inconclusiveRunLevelZeroNamespaces ++ [ns.name] }
  else if startsWithStr ns.name "openshift" then
    { c with inconclusiveOpenShiftNamespaces :=
        c.inconclusiveOpenShiftNamespaces ++ [ns.name] }
  else if (lookupStr labelSyncControlLabel ns.labels).getD "" = "false" then
    { c with inconclusiveDisabledSyncerNamespaces :=
        c.inconclusiveDisabledSyncerNamespaces ++ [ns.name] }
  else
    { c with inconclusiveCustomerNamespaces :=
        c.inconclusiveCustomerNamespaces ++ [ns.name] }

/-- One rendered operator condition (LastTransitionTime, a wall-clock read,
is left out; field msg is Message). -/
structure OperatorCondition where
  condType : String
  status : String
  reason : String
  msg : String
deriving DecidableEq, Repr

/-- makeCondition of the source. -/
def makeCondition (conditionType conditionReason : String)
    (namespaces : List String) : OperatorCondition :=
  let messageFormatter :=
    if conditionReason = violationReason then
      "Violations detected in namespaces: %v"
    else if conditionReason = inconclusiveReason then
      "Could not evaluate violations for namespaces: %v"
    else ""
  if namespaces.length > 0 then
    { condType := conditionType
      status := conditionTrue
      reason := conditionReason
      msg := sprintfSlice messageFormatter (sortStrings namespaces) }
  else
    { condType := conditionType
      status := conditionFalse
      reason := "ExpectedReason"
      msg := "" }

/-- toConditionFuncs of the source, modelled as the list of the eight
rendered conditions in source order (the v1helpers.UpdateConditionFn wrapper
only forwards each condition to the status writer). -/
def toConditionFuncs (c : PodSecurityOperatorConditions) : List OperatorCondition :=
  [ makeCondition PodSecurityCustomerViolationType violationReason
      c.violatingCustomerNamespaces,
    makeCondition PodSecurityOpenshiftViolationType violationReason
      c.violatingOpenShiftNamespaces,
    makeCondition PodSecurityRunLevelZeroViolationType violationReason
      c.violatingRunLevelZeroNamespaces,
    makeCondition PodSecurityDisabledSyncerViolationType violationReason
      c.violatingDisabledSyncerNamespaces,
    makeCondition PodSecurityCustomerInconclusiveType inconclusiveReason
      c.inconclusiveCustomerNamespaces,
    makeCondition PodSecurityOpenshiftInconclusiveType inconclusiveReason
      c.inconclusiveOpenShiftNamespaces,
    makeCondition PodSecurityRunLevelZeroInconclusiveType inconclusiveReason
      c.inconclusiveRunLevelZeroNamespaces,
    makeCondition PodSecurityDisabledSyncerInconclusiveType inconclusiveReason
      c.inconclusiveDisabledSyncerNamespaces ]

/-! Spec-side definitions, for the refinement-style claims. -/

inductive NamespaceCategory where
  | runLevelZero
  | openShiftManaged
  | syncDisabled
  | customer
deriving DecidableEq, Repr

/-- Category decision of the spec (section 4.2): the run-level-zero names,
then the reserved name start, then the disabled sync label, else customer.
The theorems below compare it with the decision chains of addViolation,
addInconclusive and shouldCheckForUserSCC. -/
def classify (ns : KNamespace) : NamespaceCategory :=
  if hasStr runLevelZeroNamespaces ns.name then .runLevelZero
  else if startsWithStr ns.name "openshift" then .openShiftManaged
  else if (lookupStr labelSyncControlLabel ns.labels).getD "" = "false" then .syncDisabled
  else .customer

/-- Strictness rank of a level: privileged below baseline below restricted. -/
def levelRank : Level → Nat
  | .privileged => 0
  | .baseline => 1
  | .restricted => 2

/-- The stricter of two levels (ties keep the first). -/
def maxLevel (a b : Level) : Level :=
  if levelRank a < levelRank b then b else a

def optMaxLevel : Option Level → Option Level → Option Level
  | none, b => b
  | some a, none => some a
  | some a, some b => some (maxLevel a b)

/-- The strictest level among the values that parse, none when no value
parses; the specification of what pickStrictest computes. -/
def strictestParsed : List String → Option Level
  | [] => none
  | v :: rest => optMaxLevel (parseLevel v) (strictestParsed rest)

/-- Dispatch of a violating namespace name into the bucket of its
category. -/
def applyViolationBucket (cat : NamespaceCategory)
    (c : PodSecurityOperatorConditions) (name : String) :
    PodSecurityOperatorConditions :=
  match cat with
  | .runLevelZero =>
    { c with violatingRunLevelZeroNamespaces :=
        c.violatingRunLevelZeroNamespaces ++ [name] }
  | .openShiftManaged =>
    { c with violatingOpenShiftNamespaces :=
        c.violatingOpenShiftNamespaces ++ [name] }
  | .syncDisabled =>
    { c with violatingDisabledSyncerNamespaces :=
        c.violatingDisabledSyncerNamespaces ++ [name] }
  | .customer =>
    { c with violatingCustomerNamespaces :=
        c.violatingCustomerNamespaces ++ [name] }

/-- Dispatch of an inconclusive namespace name into the bucket of its
category. -/
def applyInconclusiveBucket (cat : NamespaceCategory)
    (c : PodSecurityOperatorConditions) (name : String) :
    PodSecurityOperatorConditions :=
  match cat with
  | .runLevelZero =>
    { c with inconclusiveRunLevelZeroNamespaces :=
        c.inconclusiveRunLevelZeroNamespaces ++ [name] }
  | .openShiftManaged =>
    { c with inconclusiveOpenShiftNamespaces :=
        c.inconclusiveOpenShiftNamespaces ++ [name] }
  | .syncDisabled =>
    { c with inconclusiveDisabledSyncerNamespaces :=
        c.inconclusiveDisabledSyncerNamespaces ++ [name] }
  | .customer =>
    { c with inconclusiveCustomerNamespaces :=
        c.inconclusiveCustomerNamespaces ++ [name] }

/-! Helper lemmas. -/

theorem parseLevel_eq_some {v : String} {l : Level} :
    parseLevel v = some l ↔ v = levelString l := by
  constructor
  · intro h
    unfold parseLevel at h
    split_ifs at h with h1 h2 h3
    · injection h with h4; subst h4; exact h1
    · injection h with h4; subst h4; exact h2
    · injection h with h4; subst h4; exact h3
  · intro h
    subst h
    cases l <;> decide

theorem levelString_ne_empty (l : Level) : levelString l ≠ "" := by
  cases l <;> decide

theorem strListLe_total : ∀ as bs : List Char,
    strListLe as bs = true ∨ strListLe bs as = true
  | [], _ => Or.inl rfl
  | _ :: _, [] => Or.inr rfl
  | a :: as, b :: bs => by
    by_cases h1 : a.toNat < b.toNat
    · left
      simp [strListLe, h1]
    · by_cases h2 : b.toNat < a.toNat
      · right
        simp [strListLe, h2]
      · rcases strListLe_total as bs with h | h
        · left
          simpa [strListLe, h1, h2] using h
        · right
          simpa [strListLe, h1, h2] using h

theorem strListLe_cons {a b : Char} {as bs : List Char} :
    strListLe (a :: as) (b :: bs) = true ↔
      (a.toNat < b.toNat ∨ (a.toNat = b.toNat ∧ strListLe as bs = true)) := by
  by_cases h1 : a.toNat < b.toNat
  · simp [strListLe, h1]
  · by_cases h2 : b.toNat < a.toNat
    · simp only [strListLe, if_neg h1, if_pos h2]
      constructor
      · intro h
        exact absurd h (by simp)
      · rintro (h | ⟨h, -⟩) <;> omega
    · have he : a.toNat = b.toNat := by omega
      simp [strListLe, h1, h2, he]

theorem charEqOfToNat {a b : Char} (h : a.toNat = b.toNat) : a = b := by
  apply Char.ext
  apply UInt32.ext
  simpa [Char.toNat, UInt32.toNat] using h

theorem strListLe_trans : ∀ as bs cs : List Char,
    strListLe as bs = true → strListLe bs cs = true → strListLe as cs = true
  | [], _, _ => by intro _ _; rfl
  | _ :: _, [], _ => by intro h _; simp [strListLe] at h
  | _ :: _, _ :: _, [] => by intro _ h; simp [strListLe] at h
  | a :: as, b :: bs, c :: cs => by
    intro h1 h2
    rw [strListLe_cons] at h1 h2 ⊢
    rcases h1 with h1 | ⟨h1e, h1t⟩
    · rcases h2 with h2 | ⟨h2e, h2t⟩
      · exact Or.inl (by omega)
      · exact Or.inl (by omega)
    · rcases h2 with h2 | ⟨h2e, h2t⟩
      · exact Or.inl (by omega)
      · exact Or.inr ⟨by omega, strListLe_trans as bs cs h1t h2t⟩

theorem strListLe_antisymm : ∀ as bs : List Char,
    strListLe as bs = true → strListLe bs as = true → as = bs
  | [], [] => by intro _ _; rfl
  | [], _ :: _ => by intro _ h; simp [strListLe] at h
  | _ :: _, [] => by intro h _; simp [strListLe] at h
  | a :: as, b :: bs => by
    intro h1 h2
    rw [strListLe_cons] at h1 h2
    rcases h1 with h1 | ⟨h1e, h1t⟩
    · exfalso
      rcases h2 with h2 | ⟨h2e, -⟩ <;> omega
    · rcases h2 with h2 | ⟨h2e, h2t⟩
      · exact absurd h2 (by omega)
      · have hab : a = b := charEqOfToNat h1e
        subst hab
        rw [strListLe_antisymm as bs h1t h2t]

theorem strLe_total (a b : String) : strLe a b = true ∨ strLe b a = true :=
  strListLe_total a.data b.data

theorem strLe_trans {a b c : String} (h1 : strLe a b = true) (h2 : strLe b c = true) :
    strLe a c = true :=
  strListLe_trans a.data b.data c.data h1 h2

theorem strLe_antisymm {a b : String} (h1 : strLe a b = true) (h2 : strLe b a = true) :
    a = b :=
  congrArg String.mk (strListLe_antisymm a.data b.data h1 h2)

instance : IsTotal String (fun a b => strLe a b = true) := ⟨strLe_total⟩

instance : IsTrans String (fun a b => strLe a b = true) :=
  ⟨fun _ _ _ => strLe_trans⟩

instance : IsAntisymm String (fun a b => strLe a b = true) :=
  ⟨fun _ _ => strLe_antisymm⟩

theorem sortStrings_perm (l : List String) : (sortStrings l).Perm l :=
  List.perm_insertionSort _ l

theorem sortStrings_sorted (l : List String) :
    List.Sorted (fun a b => strLe a b = true) (sortStrings l) :=
  List.sorted_insertionSort _ l

theorem sortStrings_eq_of_perm {l₁ l₂ : List String} (h : l₁.Perm l₂) :
    sortStrings l₁ = sortStrings l₂ :=
  List.eq_of_perm_of_sorted
    ((sortStrings_perm l₁).trans (h.trans (sortStrings_perm l₂).symm))
    (sortStrings_sorted l₁) (sortStrings_sorted l₂)

theorem makeCondition_eq_of_perm (t r : String) {l₁ l₂ : List String}
    (h : l₁.Perm l₂) : makeCondition t r l₁ = makeCondition t r l₂ := by
  unfold makeCondition
  rw [h.length_eq, sortStrings_eq_of_perm h]

/-- Accumulator view of the pickStrictest loop: take the running strictest
level as a Level value. -/
def foldStrict (cur : Level) : List String → Level
  | [] => cur
  | v :: rest =>
    match parseLevel v with
    | none => foldStrict cur rest
    | some l => foldStrict (maxLevel cur l) rest

theorem maxLevel_comm (a b : Level) : maxLevel a b = maxLevel b a := by
  cases a <;> cases b <;> decide

theorem maxLevel_assoc (a b c : Level) :
    maxLevel (maxLevel a b) c = maxLevel a (maxLevel b c) := by
  cases a <;> cases b <;> cases c <;> decide

theorem maxLevel_right {a b : Level} (h : levelRank a < levelRank b) :
    maxLevel a b = b := by
  unfold maxLevel
  rw [if_pos h]

theorem maxLevel_left {a b : Level} (h : ¬ levelRank a < levelRank b) :
    maxLevel a b = a := by
  unfold maxLevel
  rw [if_neg h]

theorem compareLevels_lt_iff (x y : Level) :
    compareLevels (levelString x) (levelString y) < 0 ↔ levelRank x < levelRank y := by
  cases x <;> cases y <;> decide

theorem pickStrictestLoop_some : ∀ (vals : List String) (lt : Level),
    pickStrictestLoop vals (levelString lt) = levelString (foldStrict lt vals)
  | [], _ => rfl
  | v :: rest, lt => by
    cases hv : parseLevel v with
    | none =>
      simp only [pickStrictestLoop, foldStrict, hv]
      exact pickStrictestLoop_some rest lt
    | some lv =>
      have hveq : v = levelString lv := parseLevel_eq_some.mp hv
      simp only [pickStrictestLoop, foldStrict, hv]
      rw [if_neg (levelString_ne_empty lt)]
      by_cases hc : levelRank lt < levelRank lv
      · rw [if_pos (by rw [hveq]; exact (compareLevels_lt_iff lt lv).mpr hc)]
        rw [maxLevel_right hc, hveq]
        exact pickStrictestLoop_some rest lv
      · rw [if_neg (by rw [hveq]; exact fun hlt => hc ((compareLevels_lt_iff lt lv).mp hlt))]
        rw [maxLevel_left hc]
        exact pickStrictestLoop_some rest lt

theorem foldStrict_eq : ∀ (vals : List String) (cur : Level),
    foldStrict cur vals =
      (match strictestParsed vals with
       | none => cur
       | some m => maxLevel cur m)
  | [], _ => rfl
  | v :: rest, cur => by
    cases hv : parseLevel v with
    | none =>
      simp only [foldStrict, strictestParsed, hv, optMaxLevel]
      exact foldStrict_eq rest cur
    | some lv =>
      simp only [foldStrict, strictestParsed, hv, optMaxLevel]
      rw [foldStrict_eq rest (maxLevel cur lv)]
      cases hs : strictestParsed rest with
      | none => rfl
      | some m => simp [maxLevel_assoc]

theorem pickStrictestLoop_empty : ∀ vals : List String,
    pickStrictestLoop vals "" =
      (match strictestParsed vals with
       | none => ""
       | some l => levelString l)
  | [] => rfl
  | v :: rest => by
    cases hv : parseLevel v with
    | none =>
      simp only [pickStrictestLoop, strictestParsed, hv, optMaxLevel]
      exact pickStrictestLoop_empty rest
    | some lv =>
      simp only [pickStrictestLoop, strictestParsed, hv, optMaxLevel, if_true]
      rw [parseLevel_eq_some.mp hv]
      rw [pickStrictestLoop_some rest lv]
      rw [foldStrict_eq rest lv]
      cases hs : strictestParsed rest with
      | none => rfl
      | some m => rfl

/-- pickStrictest computes the strictest parsed level and falls back to
restricted when nothing parses. -/
theorem pickStrictest_eq (vals : List String) :
    pickStrictest vals =
      (match strictestParsed vals with
       | none => "restricted"
       | some l => levelString l) := by
  unfold pickStrictest
  rw [pickStrictestLoop_empty]
  cases h : strictestParsed vals with
  | none => simp
  | some l => simp [levelString_ne_empty l]

theorem strictestParsed_pair (a b : String) :
    strictestParsed [a, b] = strictestParsed [b, a] := by
  cases ha : parseLevel a <;> cases hb : parseLevel b <;>
    simp [strictestParsed, optMaxLevel, ha, hb, maxLevel_comm]

theorem viableLabelValues_nil_iff (cfg : NamespaceApplyConfiguration) :
    viableLabelValues cfg = [] ↔
      lookupStr warnLevelLabel cfg.labels = none ∧
      lookupStr auditLevelLabel cfg.labels = none := by
  unfold viableLabelValues
  cases lookupStr warnLevelLabel cfg.labels <;>
    cases lookupStr auditLevelLabel cfg.labels <;> simp

/-- C1 counterexample: a namespace with a warn label whose value does not
parse and no annotation resolves to the restricted fallback with a nil
error, so resolution does not fail with the no-signal error there. -/
theorem noSignalClaimFails :
    determineEnforceLabelForNamespace ⟨[(warnLevelLabel, "bogus")], []⟩ =
        ("restricted", none) ∧
    (determineEnforceLabelForNamespace ⟨[(warnLevelLabel, "bogus")], []⟩).2 ≠
        some GoError.noSignal := by
  decide

/-- C1 (amended): resolution fails with the no-signal error exactly when the
namespace has neither the minimally-sufficient annotation nor any warn or
audit label at all; when warn or audit labels are present but none of their
values parse, resolution instead succeeds with the restricted fallback. -/
theorem noSignalOnlyWhenNoLabels :
    ∀ cfg : NamespaceApplyConfiguration,
      ((determineEnforceLabelForNamespace cfg).2 = some GoError.noSignal ↔
        lookupStr minimallySufficientPodSecurityStandard cfg.anns = none ∧
        lookupStr warnLevelLabel cfg.labels = none ∧
        lookupStr auditLevelLabel cfg.labels = none) ∧
      (lookupStr minimallySufficientPodSecurityStandard cfg.anns = none →
        viableLabelValues cfg ≠ [] →
        strictestParsed (viableLabelValues cfg) = none →
        determineEnforceLabelForNamespace cfg = ("restricted", none)) := by
  intro cfg
  unfold determineEnforceLabelForNamespace
  cases hA : lookupStr minimallySufficientPodSecurityStandard cfg.anns with
  | some v =>
    constructor
    · simp
    · intro h
      simp at h
  | none =>
    by_cases hE : viableLabelValues cfg = []
    · rw [if_pos hE]
      constructor
      · simp [(viableLabelValues_nil_iff cfg).mp hE]
      · intro _ hne
        exact absurd hE hne
    · rw [if_neg hE]
      constructor
      · constructor
        · intro h
          exact absurd h (by simp)
        · rintro ⟨-, hw, ha⟩
          exact absurd ((viableLabelValues_nil_iff cfg).mpr ⟨hw, ha⟩) hE
      · intro _ _ hS
        rw [pickStrictest_eq, hS]

/-- C1 amended witness: with no labels at all resolution fails with the
no-signal error; with two unparseable label values it returns restricted. -/
theorem noSignalOnlyWhenNoLabels_witness :
    (determineEnforceLabelForNamespace ⟨[], []⟩).2 = some GoError.noSignal ∧
    determineEnforceLabelForNamespace
        ⟨[(warnLevelLabel, "junk"), (auditLevelLabel, "Baseline")], []⟩ =
      ("restricted", none) :=
  ⟨((noSignalOnlyWhenNoLabels ⟨[], []⟩).1).mpr ⟨rfl, rfl, rfl⟩,
   (noSignalOnlyWhenNoLabels
       ⟨[(warnLevelLabel, "junk"), (auditLevelLabel, "Baseline")], []⟩).2
     (by decide) (by decide) (by decide)⟩

/-- C4: without an annotation, resolution returns the strictest parsed
label level under privileged below baseline below restricted, the
pickStrictest fold is independent of the order of the two label entries,
and the two concrete warn/audit combinations of the claim both resolve to
restricted. -/
theorem strictestWins :
    (∀ a b : String, pickStrictest [a, b] = pickStrictest [b, a]) ∧
    (∀ (cfg : NamespaceApplyConfiguration) (l : Level),
      lookupStr minimallySufficientPodSecurityStandard cfg.anns = none →
      strictestParsed (viableLabelValues cfg) = some l →
      determineEnforceLabelForNamespace cfg = (levelString l, none)) ∧
    determineEnforceLabelForNamespace
        ⟨[(warnLevelLabel, "baseline"), (auditLevelLabel, "restricted")], []⟩ =
      ("restricted", none) ∧
    determineEnforceLabelForNamespace
        ⟨[(warnLevelLabel, "restricted"), (auditLevelLabel, "baseline")], []⟩ =
      ("restricted", none) := by
  refine ⟨?_, ?_, by decide, by decide⟩
  · intro a b
    rw [pickStrictest_eq, pickStrictest_eq, strictestParsed_pair]
  · intro cfg l hA hS
    have hne : viableLabelValues cfg ≠ [] := by
      intro h
      rw [h] at hS
      exact absurd hS (by simp [strictestParsed])
    unfold determineEnforceLabelForNamespace
    rw [hA]
    rw [if_neg hne]
    rw [pickStrictest_eq, hS]

/-- C4 witness: the order-independence and strictest-wins parts applied at
the concrete label values of the claim. -/
theorem strictestWins_witness :
    pickStrictest ["baseline", "restricted"] = pickStrictest ["restricted", "baseline"] ∧
    determineEnforceLabelForNamespace
        ⟨[(warnLevelLabel, "baseline"), (auditLevelLabel, "restricted")], []⟩ =
      (levelString Level.restricted, none) :=
  ⟨strictestWins.1 "baseline" "restricted",
   strictestWins.2.1 ⟨[(warnLevelLabel, "baseline"), (auditLevelLabel, "restricted")], []⟩
     Level.restricted (by decide) (by decide)⟩

/-- C5: whenever the minimally-sufficient annotation is present on the
extracted configuration, resolution returns its value verbatim with a nil
error, regardless of the warn and audit labels. -/
theorem annotationShortCircuits :
    ∀ (cfg : NamespaceApplyConfiguration) (v : String),
      lookupStr minimallySufficientPodSecurityStandard cfg.anns = some v →
      determineEnforceLabelForNamespace cfg = (v, none) := by
  intro cfg v h
  unfold determineEnforceLabelForNamespace
  rw [h]

/-- C5 witness: an annotation value that is not even a valid level is
returned verbatim, over a conflicting restricted warn label. -/
theorem annotationShortCircuits_witness :
    determineEnforceLabelForNamespace
        ⟨[(warnLevelLabel, "restricted")],
         [(minimallySufficientPodSecurityStandard, "NotALevel")]⟩ =
      ("NotALevel", none) :=
  annotationShortCircuits
    ⟨[(warnLevelLabel, "restricted")],
     [(minimallySufficientPodSecurityStandard, "NotALevel")]⟩
    "NotALevel" (by decide)

/-- Concrete detector input of the C2 counterexample: resolution succeeds
with an annotation value that the attribution switch rejects, the apply
succeeds, and one warning is captured. -/
def envC2 : DetectEnv :=
  { extractResult := .ok ⟨[], [(minimallySufficientPodSecurityStandard, "NotALevel")]⟩
    applyResult := none
    warnings := ["existing pods violate the enforce level"]
    podsResult := .ok []
    evaluatePod := fun _ _ => [] }

def nsC2 : KNamespace := ⟨"customer-ns", [], []⟩

/-- C2 counterexample: resolution and the dry-run apply both succeed and a
warning is captured, yet the detector reports violating false, together
with an error from the attribution step, so violating does not hold
whenever a warning was captured under the stated preconditions of the claim. -/
theorem violatingIffWarningsFails :
    (determineEnforceLabelForNamespace
        ⟨[], [(minimallySufficientPodSecurityStandard, "NotALevel")]⟩).2 = none ∧
    envC2.extractResult =
      Except.ok ⟨[], [(minimallySufficientPodSecurityStandard, "NotALevel")]⟩ ∧
    envC2.applyResult = none ∧
    envC2.warnings.length > 0 ∧
    isNamespaceViolating envC2 nsC2 =
      (false, false, some (GoError.unknownLevel "NotALevel")) := by
  refine ⟨by decide, rfl, rfl, by decide, by decide⟩

/-- C2 (amended): for every namespace for which resolution, the dry-run
apply and the attribution step all succeed, the detector reports violating
exactly when at least one warning was captured; with zero captured warnings
the outcome is not violating, with no user attribution and no error. -/
theorem violatingIffWarnings :
    ∀ (env : DetectEnv) (ns : KNamespace) (cfg : NamespaceApplyConfiguration)
      (lbl : String),
      env.extractResult = .ok cfg →
      determineEnforceLabelForNamespace cfg = (lbl, none) →
      env.applyResult = none →
      (isUserViolation env ns lbl).2 = none →
      (((isNamespaceViolating env ns).1 = true) ↔ env.warnings.length > 0) ∧
      (env.warnings = [] → isNamespaceViolating env ns = (false, false, none)) := by
  intro env ns cfg lbl hx hr ha hu
  unfold isNamespaceViolating
  simp only [hx, hr, ha]
  rcases hw : env.warnings with _ | ⟨w, ws⟩
  · simp
  · rcases hv : isUserViolation env ns lbl with ⟨u, e⟩
    rw [hv] at hu
    simp only at hu
    subst hu
    simp [hv]

/-- Concrete detector input of the C2 amended witness: resolution yields
restricted, the apply succeeds, one warning, empty pod list. -/
def envW2 : DetectEnv :=
  { extractResult := .ok ⟨[], [(minimallySufficientPodSecurityStandard, "restricted")]⟩
    applyResult := none
    warnings := ["w"]
    podsResult := .ok []
    evaluatePod := fun _ _ => [] }

def nsW2 : KNamespace := ⟨"customer-ns-w", [], []⟩

/-- C2 amended witness at a concrete input. -/
theorem violatingIffWarnings_witness :
    (((isNamespaceViolating envW2 nsW2).1 = true) ↔ envW2.warnings.length > 0) ∧
    (envW2.warnings = [] → isNamespaceViolating envW2 nsW2 = (false, false, none)) :=
  violatingIffWarnings envW2 nsW2
    ⟨[], [(minimallySufficientPodSecurityStandard, "restricted")]⟩ "restricted"
    rfl (by decide) rfl (by decide)

/-- C10: when resolution and the dry-run apply succeed, at least one warning
is captured, and the attribution step fails, the detector returns violating
false and user-attribution false together with that error, so the captured
violation is not reported for the namespace. -/
theorem attributionErrorSuppresses :
    ∀ (env : DetectEnv) (ns : KNamespace) (cfg : NamespaceApplyConfiguration)
      (lbl : String) (e : GoError) (u : Bool),
      env.extractResult = .ok cfg →
      determineEnforceLabelForNamespace cfg = (lbl, none) →
      env.applyResult = none →
      env.warnings.length > 0 →
      isUserViolation env ns lbl = (u, some e) →
      isNamespaceViolating env ns = (false, false, some e) := by
  intro env ns cfg lbl e u hx hr ha hw hv
  unfold isNamespaceViolating
  simp only [hx, hr, ha]
  rw [if_pos hw, hv]

/-- Concrete detector input of the C10 witness: a valid resolved level but
the pod listing fails. -/
def envC10 : DetectEnv :=
  { extractResult := .ok ⟨[], [(minimallySufficientPodSecurityStandard, "restricted")]⟩
    applyResult := none
    warnings := ["w1", "w2"]
    podsResult := .error (.external "pod list failed")
    evaluatePod := fun _ _ => [] }

def nsC10 : KNamespace := ⟨"customer-ns-2", [], []⟩

/-- C10 witness at a concrete input where the pod listing fails. -/
theorem attributionErrorSuppresses_witness :
    isNamespaceViolating envC10 nsC10 =
      (false, false, some (GoError.external "pod list failed")) :=
  attributionErrorSuppresses envC10 nsC10
    ⟨[], [(minimallySufficientPodSecurityStandard, "restricted")]⟩ "restricted"
    (GoError.external "pod list failed") false
    rfl (by decide) rfl (by decide) (by decide)

theorem shouldCheck_iff (ns : KNamespace) :
    shouldCheckForUserSCC ns = true ↔
      hasStr runLevelZeroNamespaces ns.name = false ∧
      startsWithStr ns.name "openshift" = false ∧
      (lookupStr labelSyncControlLabel ns.labels).getD "" ≠ "false" := by
  cases h1 : hasStr runLevelZeroNamespaces ns.name <;>
    cases h2 : startsWithStr ns.name "openshift" <;>
      by_cases h3 : (lookupStr labelSyncControlLabel ns.labels).getD "" = "false" <;>
        simp [shouldCheckForUserSCC, h1, h2, h3]

/-- C3: when the detector reports violating with no error, attribution is
user workload exactly when the namespace is attribution-eligible (name not
in the run-level-zero set, name without the reserved openshift start, sync
label not false) and some listed pod carrying the user subject-type
annotation has at least one evaluation result at the resolved level that is
not allowed; in every other case attribution is operator workload (false).
Existence over the pod list, not scan order, decides. -/
theorem userAttributionIff :
    ∀ (env : DetectEnv) (ns : KNamespace) (cfg : NamespaceApplyConfiguration)
      (lbl : String) (u : Bool),
      env.extractResult = .ok cfg →
      determineEnforceLabelForNamespace cfg = (lbl, none) →
      isNamespaceViolating env ns = (true, u, none) →
      (u = true ↔
        (hasStr runLevelZeroNamespaces ns.name = false ∧
         startsWithStr ns.name "openshift" = false ∧
         (lookupStr labelSyncControlLabel ns.labels).getD "" ≠ "false") ∧
        ∃ (lvl : Level) (pods : List Pod),
          switchLevel lbl = some lvl ∧
          env.podsResult = Except.ok pods ∧
          ∃ pod ∈ pods, isUserPod pod = true ∧
            ∃ r ∈ env.evaluatePod lvl pod, r.allowed = false) := by
  intro env ns cfg lbl u hx hr hdet
  unfold isNamespaceViolating at hdet
  simp only [hx, hr] at hdet
  cases ha : env.applyResult with
  | some e => rw [ha] at hdet; simp at hdet
  | none =>
    rw [ha] at hdet
    by_cases hw : env.warnings.length > 0
    · rw [if_pos hw] at hdet
      rcases hv : isUserViolation env ns lbl with ⟨u2, e2⟩
      rw [hv] at hdet
      cases e2 with
      | some e => simp at hdet
      | none =>
        have hu2 : u2 = u := by simpa using hdet
        subst hu2
        unfold isUserViolation at hv
        by_cases hsc : shouldCheckForUserSCC ns = false
        · rw [if_pos hsc] at hv
          simp only [Prod.mk.injEq] at hv
          obtain ⟨hu, -⟩ := hv
          constructor
          · intro h
            rw [h] at hu
            cases hu
          · rintro ⟨htriple, -⟩
            exact absurd ((shouldCheck_iff ns).mpr htriple) (by simp [hsc])
        · have hsc2 : shouldCheckForUserSCC ns = true := by
            cases h : shouldCheckForUserSCC ns
            · exact absurd h hsc
            · rfl
          rw [if_neg hsc] at hv
          cases hl : switchLevel lbl with
          | none => rw [hl] at hv; simp at hv
          | some lvl =>
            rw [hl] at hv
            cases hp : env.podsResult with
            | error e => rw [hp] at hv; simp at hv
            | ok pods =>
              rw [hp] at hv
              simp only [Prod.mk.injEq] at hv
              obtain ⟨hany, -⟩ := hv
              constructor
              · intro hu
                refine ⟨(shouldCheck_iff ns).mp hsc2, lvl, pods, rfl, rfl, ?_⟩
                have h2 : (pods.any fun pod =>
                    isUserPod pod && podFailsLevel env lvl pod) = true := by
                  rw [hany, hu]
                rw [List.any_eq_true] at h2
                obtain ⟨pod, hpod, hcond⟩ := h2
                rw [Bool.and_eq_true] at hcond
                obtain ⟨hup, hfail⟩ := hcond
                refine ⟨pod, hpod, hup, ?_⟩
                unfold podFailsLevel at hfail
                rw [List.any_eq_true] at hfail
                obtain ⟨r, hrm, hra⟩ := hfail
                exact ⟨r, hrm, by simpa using hra⟩
              · rintro ⟨-, lvl2, pods2, hl2, hp2, pod, hpod, hup, r, hrm, hra⟩
                injection hl2 with hle
                subst hle
                injection hp2 with hpe
                subst hpe
                have h2 : (pods.any fun pod =>
                    isUserPod pod && podFailsLevel env lvl pod) = true := by
                  rw [List.any_eq_true]
                  refine ⟨pod, hpod, ?_⟩
                  rw [Bool.and_eq_true]
                  refine ⟨hup, ?_⟩
                  unfold podFailsLevel
                  rw [List.any_eq_true]
                  exact ⟨r, hrm, by simpa using hra⟩
                rw [← hany, h2]
    · rw [if_neg hw] at hdet
      simp at hdet

/-- Concrete detector input of the C3 witness: one warning, one pod with
the user subject-type annotation, and an evaluator that disallows it. -/
def envC3 : DetectEnv :=
  { extractResult := .ok ⟨[], [(minimallySufficientPodSecurityStandard, "restricted")]⟩
    applyResult := none
    warnings := ["w"]
    podsResult := .ok [⟨[(validatedSCCSubjectType, "user")]⟩]
    evaluatePod := fun _ _ => [⟨false⟩] }

def nsC3 : KNamespace := ⟨"my-app", [], []⟩

/-- C3 witness at a concrete input that is violating with user
attribution. -/
theorem userAttributionIff_witness :
    true = true ↔
      (hasStr runLevelZeroNamespaces nsC3.name = false ∧
       startsWithStr nsC3.name "openshift" = false ∧
       (lookupStr labelSyncControlLabel nsC3.labels).getD "" ≠ "false") ∧
      ∃ (lvl : Level) (pods : List Pod),
        switchLevel "restricted" = some lvl ∧
        envC3.podsResult = Except.ok pods ∧
        ∃ pod ∈ pods, isUserPod pod = true ∧
          ∃ r ∈ envC3.evaluatePod lvl pod, r.allowed = false :=
  userAttributionIff envC3 nsC3
    ⟨[], [(minimallySufficientPodSecurityStandard, "restricted")]⟩ "restricted" true
    rfl (by decide) (by decide)

/-- C6: the category decision is taken in strict priority order — the fixed
run-level-zero name set first and regardless of labels, then the reserved
openshift name start even when the sync-disable label is also present, then
the sync-disable label, else customer — and addViolation, addInconclusive
and shouldCheckForUserSCC all follow exactly that decision. -/
theorem classificationConsistent :
    runLevelZeroNamespaces = ["default", "kube-system", "kube-public"] ∧
    (∀ ns : KNamespace, hasStr runLevelZeroNamespaces ns.name = true →
      classify ns = .runLevelZero) ∧
    (∀ ns : KNamespace, hasStr runLevelZeroNamespaces ns.name = false →
      startsWithStr ns.name "openshift" = true →
      classify ns = .openShiftManaged) ∧
    (∀ ns : KNamespace, hasStr runLevelZeroNamespaces ns.name = false →
      startsWithStr ns.name "openshift" = false →
      (lookupStr labelSyncControlLabel ns.labels).getD "" = "false" →
      classify ns = .syncDisabled) ∧
    (∀ ns : KNamespace, hasStr runLevelZeroNamespaces ns.name = false →
      startsWithStr ns.name "openshift" = false →
      (lookupStr labelSyncControlLabel ns.labels).getD "" ≠ "false" →
      classify ns = .customer) ∧
    (∀ (c : PodSecurityOperatorConditions) (ns : KNamespace),
      addViolation c ns = applyViolationBucket (classify ns) c ns.name) ∧
    (∀ (c : PodSecurityOperatorConditions) (ns : KNamespace),
      addInconclusive c ns = applyInconclusiveBucket (classify ns) c ns.name) ∧
    (∀ ns : KNamespace,
      shouldCheckForUserSCC ns = decide (classify ns = .customer)) := by
  refine ⟨rfl, ?_, ?_, ?_, ?_, ?_, ?_, ?_⟩
  · intro ns h
    simp [classify, h]
  · intro ns h1 h2
    simp [classify, h1, h2]
  · intro ns h1 h2 h3
    simp [classify, h1, h2, h3]
  · intro ns h1 h2 h3
    simp [classify, h1, h2, h3]
  · intro c ns
    unfold addViolation classify applyViolationBucket
    split_ifs <;> rfl
  · intro c ns
    unfold addInconclusive classify applyInconclusiveBucket
    split_ifs <;> rfl
  · intro ns
    cases h1 : hasStr runLevelZeroNamespaces ns.name <;>
      cases h2 : startsWithStr ns.name "openshift" <;>
        by_cases h3 : (lookupStr labelSyncControlLabel ns.labels).getD "" = "false" <;>
          simp [shouldCheckForUserSCC, classify, h1, h2, h3]

/-- C6 witness: a run-level-zero name with a sync-disable label still
classifies run-level-zero, an openshift name with a sync-disable label
still classifies openshift-managed, and the dispatch equations hold at a
concrete accumulator. -/
theorem classificationConsistent_witness :
    classify ⟨"kube-system", [(labelSyncControlLabel, "false")], []⟩ =
        NamespaceCategory.runLevelZero ∧
    classify ⟨"openshift-etcd", [(labelSyncControlLabel, "false")], []⟩ =
        NamespaceCategory.openShiftManaged ∧
    addViolation ⟨[], [], [], [], [], [], [], []⟩ ⟨"my-app", [], []⟩ =
      applyViolationBucket (classify ⟨"my-app", [], []⟩)
        ⟨[], [], [], [], [], [], [], []⟩ "my-app" :=
  ⟨classificationConsistent.2.1 ⟨"kube-system", [(labelSyncControlLabel, "false")], []⟩
     (by decide),
   classificationConsistent.2.2.1 ⟨"openshift-etcd", [(labelSyncControlLabel, "false")], []⟩
     (by decide) (by decide),
   classificationConsistent.2.2.2.2.2.1 ⟨[], [], [], [], [], [], [], []⟩ ⟨"my-app", [], []⟩⟩

/-- C8: every addViolation call appends the namespace name to exactly one
of the four violating lists, leaving every other list (all inconclusive
lists included) unchanged, and dually for addInconclusive, so a single
outcome never lands in both a violating and an inconclusive bucket. -/
theorem bucketAppendExclusive :
    ∀ (c : PodSecurityOperatorConditions) (ns : KNamespace),
      (addViolation c ns =
          { c with violatingRunLevelZeroNamespaces :=
              c.violatingRunLevelZeroNamespaces ++ [ns.name] } ∨
        addViolation c ns =
          { c with violatingOpenShiftNamespaces :=
              c.violatingOpenShiftNamespaces ++ [ns.name] } ∨
        addViolation c ns =
          { c with violatingDisabledSyncerNamespaces :=
              c.violatingDisabledSyncerNamespaces ++ [ns.name] } ∨
        addViolation c ns =
          { c with violatingCustomerNamespaces :=
              c.violatingCustomerNamespaces ++ [ns.name] }) ∧
      (addInconclusive c ns =
          { c with inconclusiveRunLevelZeroNamespaces :=
              c.inconclusiveRunLevelZeroNamespaces ++ [ns.name] } ∨
        addInconclusive c ns =
          { c with inconclusiveOpenShiftNamespaces :=
              c.inconclusiveOpenShiftNamespaces ++ [ns.name] } ∨
        addInconclusive c ns =
          { c with inconclusiveDisabledSyncerNamespaces :=
              c.inconclusiveDisabledSyncerNamespaces ++ [ns.name] } ∨
        addInconclusive c ns =
          { c with inconclusiveCustomerNamespaces :=
              c.inconclusiveCustomerNamespaces ++ [ns.name] }) := by
  intro c ns
  constructor
  · unfold addViolation
    split_ifs
    · exact Or.inl rfl
    · exact Or.inr (Or.inl rfl)
    · exact Or.inr (Or.inr (Or.inl rfl))
    · exact Or.inr (Or.inr (Or.inr rfl))
  · unfold addInconclusive
    split_ifs
    · exact Or.inl rfl
    · exact Or.inr (Or.inl rfl)
    · exact Or.inr (Or.inr (Or.inl rfl))
    · exact Or.inr (Or.inr (Or.inr rfl))

theorem sprintfViolationTemplate (xs : List String) :
    sprintfSlice "Violations detected in namespaces: %v" xs =
      strConcat "Violations detected in namespaces: " (goStringSlice xs) := by
  unfold sprintfSlice strConcat
  exact congrArg String.mk
    (congrArg (fun l => "Violations detected in namespaces: ".data ++ l)
      (List.append_nil (goStringSlice xs).data))

theorem sprintfInconclusiveTemplate (xs : List String) :
    sprintfSlice "Could not evaluate violations for namespaces: %v" xs =
      strConcat "Could not evaluate violations for namespaces: " (goStringSlice xs) := by
  unfold sprintfSlice strConcat
  exact congrArg String.mk
    (congrArg (fun l => "Could not evaluate violations for namespaces: ".data ++ l)
      (List.append_nil (goStringSlice xs).data))

theorem makeCondition_condType (t r : String) (nss : List String) :
    (makeCondition t r nss).condType = t := by
  unfold makeCondition
  split_ifs <;> rfl

/-- C7: a non-empty list renders status True with the matching reason
constant and the fixed template around the sorted names, an empty list
renders status False with the fixed default reason, sortStrings really is
a lexicographic sort, and every pass produces all eight conditions with
their fixed types in source order. -/
theorem conditionRendering :
    (∀ (t : String) (nss : List String), nss ≠ [] →
      makeCondition t violationReason nss =
        { condType := t, status := conditionTrue, reason := violationReason,
          msg := strConcat "Violations detected in namespaces: "
            (goStringSlice (sortStrings nss)) }) ∧
    (∀ (t : String) (nss : List String), nss ≠ [] →
      makeCondition t inconclusiveReason nss =
        { condType := t, status := conditionTrue, reason := inconclusiveReason,
          msg := strConcat "Could not evaluate violations for namespaces: "
            (goStringSlice (sortStrings nss)) }) ∧
    (∀ t r : String, makeCondition t r [] =
        { condType := t, status := conditionFalse,
          reason := "ExpectedReason", msg := "" }) ∧
    (∀ nss : List String, (sortStrings nss).Perm nss ∧
      List.Sorted (fun a b => strLe a b = true) (sortStrings nss)) ∧
    (∀ c : PodSecurityOperatorConditions,
      (toConditionFuncs c).length = 8 ∧
      (toConditionFuncs c).map OperatorCondition.condType =
        [PodSecurityCustomerViolationType, PodSecurityOpenshiftViolationType,
         PodSecurityRunLevelZeroViolationType, PodSecurityDisabledSyncerViolationType,
         PodSecurityCustomerInconclusiveType, PodSecurityOpenshiftInconclusiveType,
         PodSecurityRunLevelZeroInconclusiveType,
         PodSecurityDisabledSyncerInconclusiveType]) := by
  refine ⟨?_, ?_, ?_, ?_, ?_⟩
  · intro t nss h
    unfold makeCondition
    rw [if_pos rfl, if_pos (List.length_pos.mpr h), sprintfViolationTemplate]
  · intro t nss h
    unfold makeCondition
    rw [if_pos (List.length_pos.mpr h)]
    rw [if_neg (show ¬ (inconclusiveReason = violationReason) from by decide),
      if_pos rfl, sprintfInconclusiveTemplate]
  · intro t r
    unfold makeCondition
    rw [if_neg (by simp)]
  · intro nss
    exact ⟨sortStrings_perm nss, sortStrings_sorted nss⟩
  · intro c
    refine ⟨rfl, ?_⟩
    simp [toConditionFuncs, makeCondition_condType]

/-- C7 witness: the rendering equations applied at a concrete type, reason
and (unsorted) list. -/
theorem conditionRendering_witness :
    makeCondition PodSecurityCustomerViolationType violationReason ["b", "a"] =
        { condType := PodSecurityCustomerViolationType, status := conditionTrue,
          reason := violationReason,
          msg := strConcat "Violations detected in namespaces: "
            (goStringSlice (sortStrings ["b", "a"])) } ∧
    makeCondition PodSecurityCustomerInconclusiveType inconclusiveReason [] =
        { condType := PodSecurityCustomerInconclusiveType, status := conditionFalse,
          reason := "ExpectedReason", msg := "" } :=
  ⟨conditionRendering.1 PodSecurityCustomerViolationType ["b", "a"] (by decide),
   conditionRendering.2.2.1 PodSecurityCustomerInconclusiveType inconclusiveReason⟩

/-- C9: rendering is deterministic per pass: two accumulations holding the
same namespaces per bucket (the order of accumulation being irrelevant)
render identical condition lists, because the per-list sort and the
message formatting are deterministic; in particular rendering the same
accumulation twice gives the same conditions. -/
theorem aggregationDeterministic :
    ∀ c1 c2 : PodSecurityOperatorConditions,
      c1.violatingCustomerNamespaces.Perm c2.violatingCustomerNamespaces →
      c1.violatingOpenShiftNamespaces.Perm c2.violatingOpenShiftNamespaces →
      c1.violatingRunLevelZeroNamespaces.Perm c2.violatingRunLevelZeroNamespaces →
      c1.violatingDisabledSyncerNamespaces.Perm c2.violatingDisabledSyncerNamespaces →
      c1.inconclusiveCustomerNamespaces.Perm c2.inconclusiveCustomerNamespaces →
      c1.inconclusiveOpenShiftNamespaces.Perm c2.inconclusiveOpenShiftNamespaces →
      c1.inconclusiveRunLevelZeroNamespaces.Perm c2.inconclusiveRunLevelZeroNamespaces →
      c1.inconclusiveDisabledSyncerNamespaces.Perm c2.inconclusiveDisabledSyncerNamespaces →
      toConditionFuncs c1 = toConditionFuncs c2 := by
  intro c1 c2 h1 h2 h3 h4 h5 h6 h7 h8
  unfold toConditionFuncs
  rw [makeCondition_eq_of_perm _ _ h1, makeCondition_eq_of_perm _ _ h2,
    makeCondition_eq_of_perm _ _ h3, makeCondition_eq_of_perm _ _ h4,
    makeCondition_eq_of_perm _ _ h5, makeCondition_eq_of_perm _ _ h6,
    makeCondition_eq_of_perm _ _ h7, makeCondition_eq_of_perm _ _ h8]

/-- C9 witness: two accumulators holding the same namespaces in different
orders render the same condition list. -/
theorem aggregationDeterministic_witness :
    toConditionFuncs ⟨["b", "a"], [], [], [], [], [], [], ["z"]⟩ =
      toConditionFuncs ⟨["a", "b"], [], [], [], [], [], [], ["z"]⟩ :=
  aggregationDeterministic
    ⟨["b", "a"], [], [], [], [], [], [], ["z"]⟩
    ⟨["a", "b"], [], [], [], [], [], [], ["z"]⟩
    (List.Perm.refl _) (List.Perm.swap "a" "b" []) (List.Perm.refl _)
    (List.Perm.refl _) (List.Perm.refl _) (List.Perm.refl _)
    (List.Perm.refl _) (List.Perm.refl _)
